import Mathlib

/-!
Shallow embedding of the apifast vector-index core
(`src/update/qdrant_common.py`, `src/update/qdrant_creat_faq.py`,
`src/update/qdrant_retriever_product.py`,
`src/update/postgres_update_products_services.py`)
together with theorems settling the specification claims.

External collaborators (the vector store, the relational store's
transaction semantics, the embedding providers) are modelled at their
boundary as the specification describes them in §6; everything else is
translated directly from the Python source.
-/

namespace Apifast

/-! ## Python string truthiness helpers

`strBlank s` is the truthiness complement of Python's `s.strip()`:
`s.strip()` is falsy exactly when every character of `s` is whitespace
(the empty string included). `pyTruthyStr s` is the truthiness of `s`
itself (`if s:`). -/

def strBlank (s : String) : Bool := s.data.all (fun c => c.isWhitespace)

def pyTruthyStr (s : String) : Bool := s != ""

/-- `t.replace("\n", " ")` — the pattern is the single character `'\n'`,
so the replacement is a character-wise map. -/
def replaceNewline (s : String) : String :=
  String.mk (s.data.map (fun c => if c = '\n' then ' ' else c))

/-! ## RetryPolicy (`qdrant_common.retry_request`)

The wrapped callable is impure in Python (each invocation may succeed or
raise); we model it as a function from the attempt number to an
`Except E A` outcome. `random.uniform(0, 1)` is modelled by an explicit
jitter sequence `jitter : Nat → ℚ`. The result records what the Python
function does: `success v` for a normal return, `raised e` for the
re-raised final error, `fellThrough` when the loop body never runs and
the function returns `None`. Alongside the result we return the list of
sleep durations and the list of attempt numbers at which the callable
was invoked. -/

inductive RetryResult (E A : Type) where
  | success : A → RetryResult E A
  | raised : E → RetryResult E A
  | fellThrough : RetryResult E A
deriving DecidableEq, Repr

/-- The loop body of `retry_request`, iterating over the list of attempt
numbers: on success return the value; on failure of the final attempt
(`attempt == retries`) re-raise; otherwise sleep
`backoff ** attempt + random.uniform(0, 1)` and continue. -/
def retry_loop (f : Nat → Except E A) (backoff : ℚ) (jitter : Nat → ℚ)
    (retries : Nat) : List Nat → RetryResult E A × List ℚ × List Nat
  | [] => (.fellThrough, [], [])
  | k :: rest =>
    match f k with
    | .ok a => (.success a, [], [k])
    | .error e =>
      if k = retries then (.raised e, [], [k])
      else
        let w := backoff ^ k + jitter k
        let r := retry_loop f backoff jitter retries rest
        (r.1, w :: r.2.1, k :: r.2.2)

/-- `qdrant_common.retry_request`: attempts are numbered
`range(1, retries + 1)`, which is empty when `retries < 1`
(`Int.toNat` of a nonpositive count is `0`). -/
def retry_request (f : Nat → Except E A) (retries : Int := 3)
    (backoff : ℚ := 2) (jitter : Nat → ℚ := fun _ => 0) :
    RetryResult E A × List ℚ × List Nat :=
  retry_loop f backoff jitter retries.toNat
    ((List.range retries.toNat).map (fun i => i + 1))

/-! ## EmbeddingGenerator (`qdrant_common.embed_texts`)

The external providers are modelled at their boundary as the spec's §6
contract describes: `embedBatch(texts[]) -> vectors[]` returns one dense
vector per input text in order, and the local BM25 model returns one
sparse vector per passage in order.  They are therefore parameters
`dense1 : String → D` and `sparse1 : String → S`, a batched call being
the map of the per-text function over the batch. -/

/-- `qdrant_common.embed_texts`: drops falsy (`t and t.strip()`) entries,
replaces newlines with spaces, returns `[]` immediately when nothing
remains, else one batched provider call. -/
def embed_texts (dense1 : String → D) (texts : List String) : List D :=
  let ts := (texts.filter (fun t => pyTruthyStr t && !strBlank t)).map replaceNewline
  if ts.isEmpty then [] else ts.map dense1

/-! ## FAQ indexer (`qdrant_creat_faq.py`) -/

/-- One row of `SELECT channel_id, id, topic, question, answer FROM faq`. -/
structure FaqDoc where
  channel_id : Int
  id : Int
  topic : String
  question : String
  answer : String
deriving DecidableEq, Repr, Inhabited

/-- A Qdrant point as built by `fill_collection_faq`: the record id, the
dense (`"ada-embedding"`) vector, the sparse (`"bm25"`) vector, and the
whole row as payload. -/
structure Point (D S : Type) where
  id : Int
  dense : D
  sparse : S
  payload : FaqDoc
deriving DecidableEq, Repr

instance [Inhabited D] [Inhabited S] : Inhabited (Point D S) :=
  ⟨⟨default, default, default, default⟩⟩

/-- Structural recursion for `batch_iterable`: the first argument is
fuel, instantiated with the list length, which strictly bounds the
number of slices a positive `size` can produce.  A `size` of `0` makes
Python's `range(0, len(iterable), 0)` raise; the helper is never used
with it. -/
def batch_iterable_go : Nat → List α → Nat → List (List α)
  | _, [], _ => []
  | _, _ :: _, 0 => []
  | 0, _ :: _, _ + 1 => []
  | fuel + 1, a :: t, s + 1 =>
    (a :: t).take (s + 1) :: batch_iterable_go fuel ((a :: t).drop (s + 1)) (s + 1)

/-- `qdrant_common.batch_iterable`: slices `iterable[i:i+size]` for
`i in range(0, len(iterable), size)`. -/
def batch_iterable (l : List α) (size : Nat) : List (List α) :=
  batch_iterable_go l.length l size

/-- `filtered = [d for d in batch if d.get("question", "").strip()]`:
keeps a row exactly when its `question` is not blank. -/
def filtered_batch (batch : List FaqDoc) : List FaqDoc :=
  batch.filter (fun d => !strBlank d.question)

/-- `questions = [d["question"] for d in filtered]`. -/
def batch_questions (batch : List FaqDoc) : List String :=
  (filtered_batch batch).map (fun d => d.question)

/-- The body of one iteration of the batch loop in
`fill_collection_faq`: filter out rows with a blank `question`; if
nothing is left, `continue` (no upsert, modelled as `none`); otherwise
embed the questions through BM25 and `ada_embeddings` and build one
`PointStruct` per filtered row by position (`enumerate(filtered)` with
`ada_emb[i]` and `bm25_emb[i]`). -/
def process_batch [Inhabited D] [Inhabited S] (dense1 : String → D)
    (sparse1 : String → S) (batch : List FaqDoc) : Option (List (Point D S)) :=
  if (filtered_batch batch).isEmpty then none
  else
    let questions := batch_questions batch
    let bm25_emb := questions.map sparse1
    let ada_emb := embed_texts dense1 questions
    some ((filtered_batch batch).enum.map (fun p =>
      { id := p.2.id
        dense := ada_emb.getD p.1 default
        sparse := bm25_emb.getD p.1 default
        payload := p.2 }))

/-- `fill_collection_faq`: split `docs` into batches of `batch_size` and
upload the points of every batch whose filtered part is non-empty.  The
value is the list of per-batch point lists passed to
`upload_points`, in order. -/
def fill_collection_faq [Inhabited D] [Inhabited S] (dense1 : String → D)
    (sparse1 : String → S) (docs : List FaqDoc) (batch_size : Nat := 64) :
    List (List (Point D S)) :=
  (batch_iterable docs batch_size).filterMap (process_batch dense1 sparse1)

/-! ## Rebuild orchestration (`qdrant_create_faq_async`)

The calls the rebuild issues against the vector store, in order. -/

inductive QOp (D S : Type) where
  | deleteCollection : String → QOp D S
  | createCollection : String → QOp D S
  | createPayloadIndex : String → String → QOp D S
  | upsert : String → List (Point D S) → QOp D S
  | search : String → String → QOp D S
deriving Repr, DecidableEq

/-- Name of the FAQ collection (`settings.qdrant_collection_faq`). -/
def QDRANT_COLLECTION : String := "zena_faq"

/-- Vector-store operations issued by `qdrant_common.reset_collection`:
delete (absence swallowed — the delete call is still issued), create,
then one payload text index per field of `text_index_fields` (Python
default `None`: no index). -/
def reset_collection_ops (name : String)
    (text_index_fields : Option (List String) := none) : List (QOp D S) :=
  [QOp.deleteCollection name, QOp.createCollection name] ++
    (match text_index_fields with
     | some fields => fields.map (fun f => QOp.createPayloadIndex name f)
     | none => [])

/-- `qdrant_create_faq_async`, as a function of the rows loaded from
Postgres and of the number of hits the post-rebuild self-check query
returns, to the returned boolean and the trace of vector-store
operations: empty load fails fast with no operation; otherwise reset,
per-batch upserts, the self-check, and `bool(results)`. -/
def qdrant_create_faq_async [Inhabited D] [Inhabited S] (dense1 : String → D)
    (sparse1 : String → S) (docs : List FaqDoc) (searchHits : Nat) :
    Bool × List (QOp D S) :=
  if docs.isEmpty then (false, [])
  else
    (searchHits != 0,
      reset_collection_ops QDRANT_COLLECTION none ++
        (fill_collection_faq dense1 sparse1 docs 64).map
          (fun pts => QOp.upsert QDRANT_COLLECTION pts) ++
        [QOp.search QDRANT_COLLECTION "Абонемент"])

/-! ## Product retriever (`qdrant_retriever_product.py`) -/

/-- Payload stored on a point of the products collection (the columns
the normalizer and the filters read). -/
structure ProductPayload where
  product_id : Int
  product_name : String
  product_type : String
  body_parts : String
  indications_key : String
  contraindications_key : String
  duration : String
  price_min : Option Int
  price_max : Option Int
  channel_id : Int
deriving DecidableEq, Repr, Inhabited

/-- A raw hit returned by the vector store: a score (`null` for
unranked scroll results) and the payload. -/
structure QHit where
  score : Option ℚ
  payload : ProductPayload
deriving DecidableEq, Repr

/-- The flat domain record `points_to_list` produces. -/
structure ProductCard where
  product_id : Int
  product_name : String
  product_type : String
  body_parts : String
  indications_key : String
  contraindications_key : String
  duration : String
  price : Option String
deriving DecidableEq, Repr, Inhabited

/-- `points_to_list`: maps each hit's payload to a product card; the
price is `"{price_min} руб."` when the two bounds are equal,
`"{price_min} - {price_max} руб."` when they differ, and `None` when
either bound is `None` (the outer guard is evaluated first, so the
equality comparison only runs on non-null bounds). -/
def points_to_list (points : List QHit) : List ProductCard :=
  points.map (fun p =>
    let pl := p.payload
    { product_id := pl.product_id
      product_name := pl.product_name
      product_type := pl.product_type
      body_parts := pl.body_parts
      indications_key := pl.indications_key
      contraindications_key := pl.contraindications_key
      duration := pl.duration
      price :=
        match pl.price_min, pl.price_max with
        | some a, some b =>
          some (if a = b then s!"{a} руб." else s!"{a} - {b} руб.")
        | _, _ => none })

/-- A filter condition: `FieldCondition(key, MatchValue(value))`
(exact) or `FieldCondition(key, MatchText(text))` (full-text). -/
inductive QCond where
  | exactMatch (key : String) (v : Int)
  | textMatch (key : String) (t : String)
deriving DecidableEq, Repr

/-- A Qdrant `Filter`: each part is `None` when its list is empty, as
`make_filter` builds it. -/
structure QFilter where
  must : Option (List QCond)
  must_not : Option (List QCond)
  should : Option (List QCond)
deriving DecidableEq, Repr

/-- Python truthiness of an optional int argument (`if channel_id:`):
`None` and `0` are falsy. -/
def pyTruthyOptInt (x : Option Int) : Bool :=
  match x with
  | some v => v != 0
  | none => false

/-- Python truthiness of an optional list argument
(`if indications:`): `None` and `[]` are falsy. -/
def pyTruthyOptList (x : Option (List String)) : Bool :=
  match x with
  | some l => !l.isEmpty
  | none => false

/-- Python truthiness of an optional string argument (`if query:`):
`None` and `""` are falsy. -/
def pyTruthyOptStr (q : Option String) : Bool :=
  match q with
  | some s => s != ""
  | none => false

/-- The `must` list built by `make_filter`, in source order: channel
exact-match, then indications text-match (when `use_should` is false),
then body parts, then product type. -/
def mf_must (channel_id : Option Int) (indications body_parts product_type :
    Option (List String)) (use_should : Bool) : List QCond :=
  (if pyTruthyOptInt channel_id then
      [QCond.exactMatch "channel_id" (channel_id.getD 0)]
    else []) ++
  (if pyTruthyOptList indications && !use_should then
      (indications.getD []).map (fun i => QCond.textMatch "indications_key" i)
    else []) ++
  (if pyTruthyOptList body_parts then
      (body_parts.getD []).map (fun b => QCond.textMatch "body_parts" b)
    else []) ++
  (if pyTruthyOptList product_type then
      (product_type.getD []).map (fun t => QCond.textMatch "product_type" t)
    else [])

/-- The `should` list built by `make_filter`: indications text-match
when `use_should` is true. -/
def mf_should (indications : Option (List String)) (use_should : Bool) :
    List QCond :=
  if pyTruthyOptList indications && use_should then
    (indications.getD []).map (fun i => QCond.textMatch "indications_key" i)
  else []

/-- The `must_not` list built by `make_filter`: contraindications
text-match, always exclusionary. -/
def mf_must_not (contraindications : Option (List String)) : List QCond :=
  if pyTruthyOptList contraindications then
    (contraindications.getD []).map
      (fun c => QCond.textMatch "contraindications_key" c)
  else []

/-- `make_filter`: assembles the three condition lists and returns
`None` unless at least one is non-empty
(`if any([must, must_not, should])`); each part of the built filter is
`None` when its list is empty (`must if must else None`). -/
def make_filter (channel_id : Option Int := none)
    (indications : Option (List String) := none)
    (contraindications : Option (List String) := none)
    (body_parts : Option (List String) := none)
    (product_type : Option (List String) := none)
    (use_should : Bool := false) : Option QFilter :=
  if !(mf_must channel_id indications body_parts product_type use_should).isEmpty
      || !(mf_must_not contraindications).isEmpty
      || !(mf_should indications use_should).isEmpty then
    some
      { must :=
          if (mf_must channel_id indications body_parts product_type
              use_should).isEmpty then none
          else some (mf_must channel_id indications body_parts product_type
            use_should)
        must_not :=
          if (mf_must_not contraindications).isEmpty then none
          else some (mf_must_not contraindications)
        should :=
          if (mf_should indications use_should).isEmpty then none
          else some (mf_should indications use_should) }
  else none

/-! ### Vector-store query semantics

The store is an external collaborator; its operations are modelled from
the spec's §6 interface and §3 data model. -/

/-- A point of the products collection: point id and payload. -/
structure SPoint where
  id : Int
  payload : ProductPayload
deriving DecidableEq, Repr

/-- Modelled from the spec: evaluation of one filter condition by the
vector store — `ExactMatch(field, value)` compares the payload field for
equality, `TextMatch(field, value)` is a full-text containment match on
the payload field. -/
def evalCond (c : QCond) (pl : ProductPayload) : Bool :=
  match c with
  | .exactMatch k v =>
    if k = "channel_id" then pl.channel_id == v else false
  | .textMatch k t =>
    if k = "indications_key" then decide (t.data <:+: pl.indications_key.data)
    else if k = "body_parts" then decide (t.data <:+: pl.body_parts.data)
    else if k = "product_type" then decide (t.data <:+: pl.product_type.data)
    else if k = "contraindications_key" then
      decide (t.data <:+: pl.contraindications_key.data)
    else false

/-- Modelled from the spec: filter evaluation — all `must` conditions
hold, no `must_not` condition holds, and at least one `should`
condition holds when any is present; a `None` filter matches
everything. -/
def evalFilter (f : Option QFilter) (pl : ProductPayload) : Bool :=
  match f with
  | none => true
  | some flt =>
    (flt.must.getD []).all (fun c => evalCond c pl) &&
    (flt.must_not.getD []).all (fun c => !evalCond c pl) &&
    ((flt.should.getD []).isEmpty ||
      (flt.should.getD []).any (fun c => evalCond c pl))

/-- Insertion into a list sorted by `le`. -/
def insertSorted (le : α → α → Bool) (a : α) : List α → List α
  | [] => [a]
  | b :: t => if le a b then a :: b :: t else b :: insertSorted le a t

/-- Insertion sort by `le`. -/
def sortBy (le : α → α → Bool) : List α → List α
  | [] => []
  | a :: t => insertSorted le a (sortBy le t)

/-- Modelled from the spec: one prefetch pass — the top-`limit` points
under the pass's vector-space score among the points satisfying the
filter, higher scores first, ties broken by point id. -/
def topK (score : SPoint → ℚ) (φ : SPoint → Bool) (pts : List SPoint)
    (limit : Nat) : List SPoint :=
  (sortBy (fun a b =>
      decide (score b < score a ∨ (score a = score b ∧ a.id ≤ b.id)))
    (pts.filter φ)).take limit

/-- A prefetch request: a vector-space score and a candidate limit (the
query embedding is absorbed into the score function). -/
structure PrefetchQ where
  score : SPoint → ℚ
  limit : Nat

/-- Modelled from the spec: Reciprocal Rank Fusion score of a point —
the sum over the ranked candidate lists containing it of
`1 / (k + rank)`, ranks starting at 1. -/
def rrfScore (kc : Nat) (lists : List (List SPoint)) (p : SPoint) : ℚ :=
  (lists.map (fun l =>
    match l.indexOf? p with
    | some r => (1 : ℚ) / ((kc + r + 1 : Nat) : ℚ)
    | none => 0)).sum

/-- Modelled from the spec: the store's `queryFused` operation — run
every prefetch pass under the filter, fuse the candidate lists by RRF
(ties broken by point id), and return the fused top-`limit` as scored
hits. -/
def queryFusedRRF (kc : Nat) (pts : List SPoint) (φ : SPoint → Bool)
    (prefetches : List PrefetchQ) (limit : Nat) : List QHit :=
  let lists := prefetches.map (fun pf => topK pf.score φ pts pf.limit)
  let fused := (sortBy (fun a b =>
      decide (rrfScore kc lists b < rrfScore kc lists a ∨
        (rrfScore kc lists a = rrfScore kc lists b ∧ a.id ≤ b.id)))
    lists.flatten.dedup).take limit
  fused.map (fun p => { score := some (rrfScore kc lists p), payload := p.payload })

/-- The filter `retriever_product_hybrid_async` builds: `make_filter`
over all criteria with `use_should=True`, evaluated on a point's
payload. -/
def hybrid_filter (channel_id : Int) (indications contraindications body_parts
    product_type : Option (List String)) : SPoint → Bool :=
  fun p =>
    evalFilter (make_filter (some channel_id) indications contraindications
      body_parts product_type true) p.payload

/-- `retriever_product_hybrid_async`: with a truthy query, two prefetch
passes of at most 12 candidates each (dense `"ada-embedding"` and
sparse `"bm25"`), fused by RRF under the filter with final limit 12;
with no query, an unranked scroll of at most 12 under the filter.  The
raw hits run through `points_to_list`.  `kc` is the store's fixed RRF
constant; the query embeddings are absorbed into the score functions
`dense` and `sparse`. -/
def retriever_product_hybrid_async (kc : Nat) (dense sparse : SPoint → ℚ)
    (pts : List SPoint) (channel_id : Int) (query : Option String)
    (indications contraindications body_parts product_type :
      Option (List String)) : List ProductCard :=
  let φ := hybrid_filter channel_id indications contraindications body_parts
    product_type
  if pyTruthyOptStr query then
    points_to_list
      (queryFusedRRF kc pts φ [⟨dense, 12⟩, ⟨sparse, 12⟩] 12)
  else
    points_to_list (((pts.filter φ).take 12).map
      (fun p => { score := none, payload := p.payload }))

/-! ## Association-table rebuild
(`postgres_update_products_services.py`)

The relational store is an external collaborator; its behaviour at the
boundary (which statements succeed, what the catalog queries return,
what the integrity checks report) is an explicit environment, and
`async with conn.transaction()` is modelled by its contract: the table
state changes only when the body completes, and is rolled back
unchanged when any statement inside raises. -/

/-- One row of `SELECT product_full_name as product_name, article FROM
products WHERE channel_id = $1`. -/
structure PgProduct where
  product_name : String
  article : String
deriving DecidableEq, Repr

/-- Boundary behaviour of the relational store during one
`update_products_services` run.  Operations whose exceptions the code
catches and only logs (`qdrant_create_services_async`'s `False`,
`REINDEX INDEX`, `ANALYZE`) are recorded but cannot influence control
flow. -/
structure PgEnv where
  /-- result of `qdrant_create_services_async` (failure only logged) -/
  qcs_result : Bool
  /-- `CREATE EXTENSION IF NOT EXISTS amcheck` succeeded -/
  amcheck_ok : Bool
  /-- `to_regclass('public.products_article_key') IS NOT NULL` -/
  primary_exists : Bool
  /-- btree indexes of `public.products` from the catalog query -/
  catalog_indexes : List String
  /-- `bt_index_check` outcome per index, first pass -/
  btcheck1 : String → Bool
  /-- whether `REINDEX INDEX` succeeds (its failure is caught and logged) -/
  reindex_index_ok : String → Bool
  /-- `bt_index_check` outcome per index, re-check pass -/
  btcheck2 : String → Bool
  /-- whether `REINDEX TABLE public.products` succeeds (not caught) -/
  reindex_table_ok : Bool
  /-- whether `ANALYZE` succeeds (its failure is caught and logged) -/
  analyze_ok : Bool
  /-- `SELECT id FROM services WHERE channel_id = $1` -/
  service_ids : List Int
  /-- the services fetch statement succeeds -/
  fetch_services_ok : Bool
  /-- the `DELETE FROM products_services` statement succeeds -/
  delete_ok : Bool
  /-- `SELECT ... FROM products WHERE channel_id = $1` -/
  products : List PgProduct
  /-- the products fetch statement succeeds -/
  fetch_products_ok : Bool
  /-- `_fetch_service_id` outcome per product: `None` on no retrieval
  hit or on a caught error, else `(article, service_id)` -/
  lookup : PgProduct → Option (String × Int)
  /-- the `INSERT INTO products_services` executemany succeeds -/
  insert_ok : Bool

/-- The suspects accumulation: `if idx not in suspects:
suspects.append(idx)` over the catalog rows. -/
def addSuspects (s0 : List String) (rows : List String) : List String :=
  rows.foldl (fun acc i => if i ∈ acc then acc else acc ++ [i]) s0

/-- The suspect list: the unique article index first (when it exists),
then the catalog's btree indexes of `public.products`. -/
def pgSuspects (env : PgEnv) : List String :=
  addSuspects
    (if env.primary_exists then ["public.products_article_key"] else [])
    env.catalog_indexes

/-- The indexes the first `bt_index_check` pass reports as bad. -/
def pgBad (env : PgEnv) : List String :=
  (pgSuspects env).filter (fun i => !env.btcheck1 i)

/-- The bad indexes still failing the re-check after the targeted
reindex attempts. -/
def pgStillBad (env : PgEnv) : List String :=
  (pgBad env).filter (fun i => !env.btcheck2 i)

/-- `_check_and_fix_products_indexes` run on `env`; `true` means the
function returned normally, `false` that it raised.  Control flow: no
amcheck → return; no suspects → return; no bad index → return; else
targeted `REINDEX INDEX` per bad index (failures caught and logged, so
`env.reindex_index_ok` cannot affect the outcome), a re-check, and
`REINDEX TABLE public.products` when something is still bad — the only
statement here whose failure propagates.  The closing `ANALYZE` is
caught and logged. -/
def check_and_fix_products_indexes (env : PgEnv) : Bool :=
  if !env.amcheck_ok then true
  else if (pgSuspects env).isEmpty then true
  else if (pgBad env).isEmpty then true
  else if !(pgStillBad env).isEmpty then env.reindex_table_ok
  else true

/-- The table after the scoped delete: rows whose `service_id` is among
the channel's service ids are removed (the `DELETE` only runs when
there are ids). -/
def ps_after_delete (env : PgEnv) (links : List (String × Int)) :
    List (String × Int) :=
  if !env.service_ids.isEmpty then
    links.filter (fun pr => !env.service_ids.contains pr.2)
  else links

/-- `insert_tuples = [res for res in results if res is not None]` where
`results` is the (order-preserving) gather of one lookup per product. -/
def ps_insert_tuples (env : PgEnv) : List (String × Int) :=
  (env.products.map env.lookup).filterMap id

/-- The body of `async with conn.transaction()`: fetch the channel's
service ids, delete the stale links (only when there are ids), fetch
the channel's products, gather one retrieval lookup per product (the
lookups never raise: `_fetch_service_id` catches everything and returns
`None`), keep the non-`None` pairs, and bulk-insert them (only when any
survive).  Returns the committed table on success and `none` (rollback,
table unchanged) when a statement inside raises. -/
def run_ps_transaction (env : PgEnv) (links : List (String × Int)) :
    Option (List (String × Int)) :=
  if !env.fetch_services_ok then none
  else if !env.service_ids.isEmpty && !env.delete_ok then none
  else if !env.fetch_products_ok then none
  else if !(ps_insert_tuples env).isEmpty && !env.insert_ok then none
  else some (ps_after_delete env links ++ ps_insert_tuples env)

/-- Outcome of one `update_products_services` run: the returned
boolean, the committed `products_services` table, and whether the
business transaction was entered. -/
structure UpdateOutcome where
  result : Bool
  links : List (String × Int)
  txExecuted : Bool
deriving DecidableEq, Repr

/-- `update_products_services` for one channel, as a function of the
store's boundary behaviour and the current `products_services` table:
the auxiliary vector-collection build failure is only logged; then the
index repair runs before the transaction (its raise is caught by the
outer `except`, returning `False` without entering the transaction);
then the delete-and-insert transaction runs, any raise inside rolling
it back and returning `False`. -/
def update_products_services (env : PgEnv) (links : List (String × Int)) :
    UpdateOutcome :=
  if check_and_fix_products_indexes env then
    match run_ps_transaction env links with
    | some newLinks => { result := true, links := newLinks, txExecuted := true }
    | none => { result := false, links := links, txExecuted := true }
  else { result := false, links := links, txExecuted := false }

/-! ## Concrete example data (used by witnesses) -/

/-- An FAQ row with a non-blank question. -/
def egFaqA : FaqDoc := ⟨1, 10, "t", "q", "a"⟩

/-- An FAQ row whose question is whitespace only. -/
def egFaqBlank : FaqDoc := ⟨1, 11, "t", " ", "a"⟩

/-- A two-row batch: one usable row, one blank-question row. -/
def egBatch : List FaqDoc := [egFaqA, egFaqBlank]

/-- A concrete dense embedder over `D = Nat`. -/
def egDense : String → Nat := fun s => s.data.length

/-- A concrete sparse embedder over `S = Nat`. -/
def egSparse : String → Nat := fun s => 2 * s.data.length

/-- A store environment in which everything works except the final bulk
insert of product-service links. -/
def egEnvInsertFail : PgEnv :=
  { qcs_result := true, amcheck_ok := true, primary_exists := false,
    catalog_indexes := [], btcheck1 := fun _ => true,
    reindex_index_ok := fun _ => true, btcheck2 := fun _ => true,
    reindex_table_ok := true, analyze_ok := true,
    service_ids := [5], fetch_services_ok := true, delete_ok := true,
    products := [⟨"p", "a"⟩], fetch_products_ok := true,
    lookup := fun _ => some ("a", 5), insert_ok := false }

/-- A store environment whose unique-index check fails, the targeted
reindex fails, the re-check still fails, and the table-wide reindex
fails too. -/
def egEnvTableReindexFail : PgEnv :=
  { qcs_result := true, amcheck_ok := true, primary_exists := true,
    catalog_indexes := [], btcheck1 := fun _ => false,
    reindex_index_ok := fun _ => false, btcheck2 := fun _ => false,
    reindex_table_ok := false, analyze_ok := true,
    service_ids := [], fetch_services_ok := true, delete_ok := true,
    products := [], fetch_products_ok := true,
    lookup := fun _ => none, insert_ok := true }

/-- A store environment whose targeted reindex fails on every index but
whose table-wide reindex succeeds. -/
def egEnvTargetedFail : PgEnv :=
  { qcs_result := true, amcheck_ok := true, primary_exists := true,
    catalog_indexes := [], btcheck1 := fun _ => false,
    reindex_index_ok := fun _ => false, btcheck2 := fun _ => false,
    reindex_table_ok := true, analyze_ok := true,
    service_ids := [], fetch_services_ok := true, delete_ok := true,
    products := [], fetch_products_ok := true,
    lookup := fun _ => none, insert_ok := true }

/-- A product payload with the given price bounds. -/
def egPayload (pmin pmax : Option Int) : ProductPayload :=
  ⟨7, "n", "t", "b", "i", "c", "d", pmin, pmax, 1⟩

/-- Two concrete points of the products collection. -/
def egPts : List SPoint :=
  [⟨1, egPayload (some 100) (some 100)⟩, ⟨2, egPayload (some 100) (some 200)⟩]

/-- A concrete vector-space score. -/
def egScore : SPoint → ℚ := fun p => (p.id : ℚ)

/-- A wrapped callable failing on attempts 1 and 2 and succeeding on
attempt 3. -/
def egRetryF : Nat → Except Nat Nat := fun k => if k < 3 then .error 0 else .ok 42

/-- A concrete jitter draw sequence (all draws `0`, inside `[0, 1)`). -/
def egJitter : Nat → ℚ := fun _ => 0

/-! ## Theorems -/

/-- If a string is not blank it is also truthy (a non-empty string). -/
theorem pyTruthyStr_of_not_strBlank (s : String) (h : strBlank s = false) :
    pyTruthyStr s = true := by
  rcases s with ⟨cs⟩
  cases cs with
  | nil => simp [strBlank] at h
  | cons c t =>
    have hne : String.mk (c :: t) ≠ "" := by
      intro hc
      have hdata : (c :: t : List Char) = ([] : List Char) := congrArg String.data hc
      simp at hdata
    simp [pyTruthyStr, hne]

/-- `getD` through `map` at an in-range position. -/
theorem getD_map_lt (f : α → β) (db : β) (da : α) :
    ∀ (l : List α) (i : Nat), i < l.length → (l.map f).getD i db = f (l.getD i da)
  | _ :: _, 0, _ => rfl
  | _ :: t, i + 1, h => by
    simpa using getD_map_lt f db da t i (by simpa using h)

/-- `getD` through `map` over `enumFrom` at an in-range position. -/
theorem getD_enumFrom_map (f : Nat × α → β) (db : β) (da : α) :
    ∀ (n : Nat) (l : List α) (i : Nat), i < l.length →
      ((l.enumFrom n).map f).getD i db = f (n + i, l.getD i da)
  | _, _ :: _, 0, _ => rfl
  | n, _ :: t, i + 1, h => by
    have := getD_enumFrom_map f db da (n + 1) t i (by simpa using h)
    simpa [Nat.add_assoc, Nat.add_comm 1 i] using this

/-- `getD` through `map` over `enum` at an in-range position. -/
theorem getD_enum_map (f : Nat × α → β) (db : β) (da : α) (l : List α) (i : Nat)
    (h : i < l.length) : (l.enum.map f).getD i db = f (i, l.getD i da) := by
  simpa using getD_enumFrom_map f db da 0 l i h

/-- Every question of a filtered batch is non-blank, so the re-filter
inside `embed_texts` keeps the whole list. -/
theorem filter_batch_questions (batch : List FaqDoc) :
    (batch_questions batch).filter (fun t => pyTruthyStr t && !strBlank t) =
      batch_questions batch := by
  apply List.filter_eq_self.mpr
  intro t ht
  rcases List.mem_map.mp ht with ⟨d, hd, rfl⟩
  rcases List.mem_filter.mp hd with ⟨-, hq⟩
  have hblank : strBlank d.question = false := by simpa using hq
  simp [pyTruthyStr_of_not_strBlank _ hblank, hblank]

/-- `embed_texts` over the filtered questions returns one dense vector
per question. -/
theorem embed_texts_length [Inhabited D] (dense1 : String → D)
    (batch : List FaqDoc) :
    (embed_texts dense1 (batch_questions batch)).length =
      (batch_questions batch).length := by
  unfold embed_texts
  rw [filter_batch_questions]
  by_cases h : ((batch_questions batch).map replaceNewline).isEmpty
  · have hnil : batch_questions batch = [] := by
      rcases hq : batch_questions batch with - | ⟨a, t⟩
      · rfl
      · rw [hq] at h; simp at h
    simp [hnil, h]
  · have hne : ¬ batch_questions batch = [] := by
      intro hq
      rw [hq] at h; simp at h
    simp [if_neg h, hne]

/-- C1: for every batch processed during a rebuild, after filtering out
records whose primary text field (`question`) is blank, the filtered
records, the dense vectors, and the sparse vectors all have the same
length, and position `i` in each of the three lists describes the same
source record: the `i`-th built point carries the `i`-th filtered
record's id and payload together with the `i`-th dense and the `i`-th
sparse vector. -/
theorem faq_batch_alignment {D S : Type} [Inhabited D] [Inhabited S]
    (dense1 : String → D) (sparse1 : String → S) (batch : List FaqDoc) :
    (embed_texts dense1 (batch_questions batch)).length =
        (filtered_batch batch).length ∧
    ((batch_questions batch).map sparse1).length =
        (filtered_batch batch).length ∧
    ∀ pts, process_batch dense1 sparse1 batch = some pts →
      pts.length = (filtered_batch batch).length ∧
      ∀ i, i < (filtered_batch batch).length →
        pts.getD i default =
          { id := ((filtered_batch batch).getD i default).id
            dense := (embed_texts dense1 (batch_questions batch)).getD i default
            sparse := ((batch_questions batch).map sparse1).getD i default
            payload := (filtered_batch batch).getD i default } := by
  have hada : (embed_texts dense1 (batch_questions batch)).length =
      (filtered_batch batch).length := by
    rw [embed_texts_length]
    simp [batch_questions]
  refine ⟨hada, by simp [batch_questions], ?_⟩
  intro pts hpts
  unfold process_batch at hpts
  by_cases hemp : (filtered_batch batch).isEmpty
  · simp [hemp] at hpts
  · simp only [hemp, Bool.false_eq_true, if_false, Option.some.injEq] at hpts
    subst hpts
    constructor
    · simp
    · intro i hi
      rw [getD_enum_map _ _ default _ _ hi]

/-- Witness for C1 at a concrete batch: the blank row is dropped, one
point is built, and position 0 of the point list matches position 0 of
the filtered records, dense vectors and sparse vectors. -/
theorem faq_batch_alignment_witness :
    process_batch egDense egSparse egBatch =
        some [{ id := 10, dense := 1, sparse := 2, payload := egFaqA }] ∧
    0 < (filtered_batch egBatch).length ∧
    ([({ id := 10, dense := 1, sparse := 2, payload := egFaqA } : Point Nat Nat)].getD
        0 default =
      { id := ((filtered_batch egBatch).getD 0 default).id
        dense := (embed_texts egDense (batch_questions egBatch)).getD 0 default
        sparse := ((batch_questions egBatch).map egSparse).getD 0 default
        payload := (filtered_batch egBatch).getD 0 default }) := by
  have hp : process_batch egDense egSparse egBatch =
      some [{ id := 10, dense := 1, sparse := 2, payload := egFaqA }] := by decide
  have hl : 0 < (filtered_batch egBatch).length := by decide
  exact ⟨hp, hl, ((faq_batch_alignment egDense egSparse egBatch).2.2 _ hp).2 0 hl⟩

/-- Every payload of every uploaded point batch has a non-blank
question. -/
theorem fill_payload_not_blank {D S : Type} [Inhabited D] [Inhabited S]
    (dense1 : String → D) (sparse1 : String → S) (docs : List FaqDoc)
    (bs : Nat) :
    ∀ pts ∈ fill_collection_faq dense1 sparse1 docs bs, ∀ p ∈ pts,
      strBlank p.payload.question = false := by
  intro pts hpts p hp
  rcases List.mem_filterMap.mp hpts with ⟨batch, -, hproc⟩
  unfold process_batch at hproc
  by_cases hemp : (filtered_batch batch).isEmpty
  · simp [hemp] at hproc
  · simp only [hemp, Bool.false_eq_true, if_false, Option.some.injEq] at hproc
    subst hproc
    rcases List.mem_map.mp hp with ⟨q, hq, rfl⟩
    have hq2 : q.2 ∈ filtered_batch batch := by
      have : q.2 ∈ (filtered_batch batch).enum.map Prod.snd :=
        List.mem_map_of_mem Prod.snd hq
      simpa [List.enum_map_snd] using this
    rcases List.mem_filter.mp hq2 with ⟨-, hnb⟩
    simpa using hnb

/-- C2: a source record whose `question` is empty or whitespace never
appears as the payload of any point the rebuild upserts. -/
theorem blank_question_excluded {D S : Type} [Inhabited D] [Inhabited S]
    (dense1 : String → D) (sparse1 : String → S) (docs : List FaqDoc)
    (hits : Nat) (d : FaqDoc) (hmem : d ∈ docs)
    (hblank : strBlank d.question = true) :
    ∀ op ∈ (qdrant_create_faq_async dense1 sparse1 docs hits).2,
      ∀ name pts, op = QOp.upsert name pts → ∀ p ∈ pts, p.payload ≠ d := by
  intro op hop name pts hup p hp hpd
  have hne : docs.isEmpty = false := by
    cases docs with
    | nil => cases hmem
    | cons a t => rfl
  unfold qdrant_create_faq_async at hop
  rw [hne] at hop
  simp only [Bool.false_eq_true, if_false] at hop
  rcases List.mem_append.mp hop with hop1 | hop2
  · rcases List.mem_append.mp hop1 with hres | hfill
    · subst hup
      simp [reset_collection_ops] at hres
    · subst hup
      rcases List.mem_map.mp hfill with ⟨pts2, hpts2, heq⟩
      have hpp : pts = pts2 := by
        cases heq
        rfl
      subst hpp
      have := fill_payload_not_blank dense1 sparse1 docs 64 pts hpts2 p hp
      rw [hpd, hblank] at this
      cases this
  · subst hup
    simp at hop2

/-- Witness for C2: with the two-row example, the blank row `egFaqBlank`
is a member of the load, its question is blank, and it is not the
payload of the (unique) upserted point. -/
theorem blank_question_excluded_witness :
    egFaqBlank ∈ egBatch ∧ strBlank egFaqBlank.question = true ∧
    (({ id := 10, dense := 1, sparse := 2, payload := egFaqA } : Point Nat Nat).payload
      ≠ egFaqBlank) := by
  have hmem : egFaqBlank ∈ egBatch := by decide
  have hblank : strBlank egFaqBlank.question = true := by decide
  have hop : QOp.upsert QDRANT_COLLECTION
      [({ id := 10, dense := 1, sparse := 2, payload := egFaqA } : Point Nat Nat)] ∈
      (qdrant_create_faq_async egDense egSparse egBatch 1).2 := by decide
  refine ⟨hmem, hblank, ?_⟩
  exact blank_question_excluded egDense egSparse egBatch 1 egFaqBlank hmem hblank
    _ hop QDRANT_COLLECTION _ rfl
    { id := 10, dense := 1, sparse := 2, payload := egFaqA } (by decide)

/-- C4: a rebuild invocation whose source load returns no rows returns
`false` and issues no operation against the vector store: nothing is
deleted, created, or written. -/
theorem empty_load_fails_fast {D S : Type} [Inhabited D] [Inhabited S]
    (dense1 : String → D) (sparse1 : String → S) (hits : Nat) :
    qdrant_create_faq_async dense1 sparse1 [] hits = (false, []) := by
  simp [qdrant_create_faq_async]

/-- C3: a wrapped function failing on attempts 1 and 2 and succeeding on
attempt 3, run with `retries = 3` and `backoff = 2.0` and jitter draws
inside `[0, 1)`, returns the success value and sleeps exactly twice,
the wait after failed attempt `k` being `2.0 ^ k` plus the draw, hence
at least `2.0 ^ k` and below `2.0 ^ k + 1`. -/
theorem retry_third_attempt_success {E A : Type} (f : Nat → Except E A) (v : A)
    (jitter : Nat → ℚ) (e1 e2 : E)
    (hj : ∀ k, 0 ≤ jitter k ∧ jitter k < 1)
    (h1 : f 1 = .error e1) (h2 : f 2 = .error e2) (h3 : f 3 = .ok v) :
    (retry_request f 3 2 jitter).1 = .success v ∧
    (retry_request f 3 2 jitter).2.1.length = 2 ∧
    (retry_request f 3 2 jitter).2.1 = [2 ^ 1 + jitter 1, 2 ^ 2 + jitter 2] ∧
    ((2 : ℚ) ^ 1 ≤ (retry_request f 3 2 jitter).2.1.getD 0 0 ∧
      (retry_request f 3 2 jitter).2.1.getD 0 0 < 2 ^ 1 + 1) ∧
    ((2 : ℚ) ^ 2 ≤ (retry_request f 3 2 jitter).2.1.getD 1 0 ∧
      (retry_request f 3 2 jitter).2.1.getD 1 0 < 2 ^ 2 + 1) := by
  have hcomp : retry_request f 3 2 jitter =
      (.success v, [2 ^ 1 + jitter 1, 2 ^ 2 + jitter 2], [1, 2, 3]) := by
    have hl : (List.range (Int.toNat 3)).map (fun i => i + 1) = [1, 2, 3] := by
      decide
    unfold retry_request
    rw [hl]
    rw [retry_loop, h1]
    simp only [retry_loop, h2, h3, show Int.toNat 3 = 3 from rfl]
    norm_num
  rw [hcomp]
  have hj1 := hj 1
  have hj2 := hj 2
  refine ⟨rfl, rfl, rfl, ⟨?_, ?_⟩, ⟨?_, ?_⟩⟩ <;>
    · simp only [List.getD, List.get?_cons_zero, List.get?_cons_succ,
        Option.getD_some]
      nlinarith [hj1.1, hj1.2, hj2.1, hj2.2]

/-- Witness for C3: a concrete callable failing twice then returning
`42`, with all jitter draws `0`: the retry returns `42` and sleeps
exactly `[2, 4]`. -/
theorem retry_third_attempt_success_witness :
    egRetryF 1 = .error 0 ∧ egRetryF 2 = .error 0 ∧ egRetryF 3 = .ok 42 ∧
    (∀ k, 0 ≤ egJitter k ∧ egJitter k < 1) ∧
    (retry_request egRetryF 3 2 egJitter).1 = .success 42 ∧
    (retry_request egRetryF 3 2 egJitter).2.1.length = 2 ∧
    (retry_request egRetryF 3 2 egJitter).2.1 =
      [2 ^ 1 + egJitter 1, 2 ^ 2 + egJitter 2] := by
  have h1 : egRetryF 1 = .error 0 := rfl
  have h2 : egRetryF 2 = .error 0 := rfl
  have h3 : egRetryF 3 = .ok 42 := rfl
  have hj : ∀ k, 0 ≤ egJitter k ∧ egJitter k < 1 := by
    intro k
    constructor <;> norm_num [egJitter]
  have hmain := retry_third_attempt_success egRetryF 42 egJitter 0 0 hj h1 h2 h3
  exact ⟨h1, h2, h3, hj, hmain.1, hmain.2.1, hmain.2.2.1⟩

/-- C10: with any `retries` value below 1, the attempt loop body never
executes: `retry_request` invokes the wrapped function zero times,
sleeps zero times, raises nothing, and falls through returning Python's
`None`. -/
theorem retry_nonpositive_retries {E A : Type} (f : Nat → Except E A)
    (retries : Int) (backoff : ℚ) (jitter : Nat → ℚ) (h : retries < 1) :
    retry_request f retries backoff jitter = (.fellThrough, [], []) := by
  have ht : retries.toNat = 0 := Int.toNat_eq_zero.mpr (by omega)
  unfold retry_request
  rw [ht]
  rw [show (List.range 0).map (fun i => i + 1) = [] from rfl]
  rw [retry_loop]

/-- Witness for C10: `retries = 0` with the concrete callable — the loop
never runs and `None` comes back with no sleep and no invocation. -/
theorem retry_nonpositive_retries_witness :
    (0 : Int) < 1 ∧
    retry_request egRetryF 0 2 egJitter = (.fellThrough, [], []) :=
  ⟨by norm_num, retry_nonpositive_retries egRetryF 0 2 egJitter (by norm_num)⟩

/-- C8: the result normalizer emits `"{price} руб."` when the two
non-null price bounds are equal, `"{price_min} - {price_max} руб."`
when they are non-null and differ, and `null` when either bound is
null. -/
theorem price_formatting (sc : Option ℚ) (pl : ProductPayload) :
    (∀ a : Int, pl.price_min = some a → pl.price_max = some a →
      ((points_to_list [⟨sc, pl⟩]).getD 0 default).price = some s!"{a} руб.") ∧
    (∀ a b : Int, pl.price_min = some a → pl.price_max = some b → a ≠ b →
      ((points_to_list [⟨sc, pl⟩]).getD 0 default).price =
        some s!"{a} - {b} руб.") ∧
    ((pl.price_min = none ∨ pl.price_max = none) →
      ((points_to_list [⟨sc, pl⟩]).getD 0 default).price = none) := by
  refine ⟨?_, ?_, ?_⟩
  · intro a hmin hmax
    simp [points_to_list, hmin, hmax]
  · intro a b hmin hmax hne
    simp [points_to_list, hmin, hmax, hne]
  · intro h
    rcases h with h | h
    · rcases hmax : pl.price_max with - | b <;> simp [points_to_list, h, hmax]
    · rcases hmin : pl.price_min with - | a <;> simp [points_to_list, h, hmin]

/-- Witness for C8 on the spec's three examples: `(100, 100)` gives
`"100 руб."`, `(100, 200)` gives `"100 - 200 руб."`, `(null, 200)`
gives `null`. -/
theorem price_formatting_witness :
    ((points_to_list [⟨none, egPayload (some 100) (some 100)⟩]).getD 0
      default).price = some "100 руб." ∧
    ((points_to_list [⟨none, egPayload (some 100) (some 200)⟩]).getD 0
      default).price = some "100 - 200 руб." ∧
    ((points_to_list [⟨none, egPayload none (some 200)⟩]).getD 0
      default).price = none := by
  have h1 := (price_formatting none (egPayload (some 100) (some 100))).1
    100 rfl rfl
  have h2 := (price_formatting none (egPayload (some 100) (some 200))).2.1
    100 200 rfl rfl (by decide)
  have h3 := (price_formatting none (egPayload none (some 200))).2.2
    (Or.inl rfl)
  refine ⟨?_, ?_, h3⟩
  · rw [h1]
    rfl
  · rw [h2]
    rfl

/-- A truthy optional list maps to a non-empty condition list. -/
theorem truthy_list_map_ne_nil (x : Option (List String)) (f : String → QCond)
    (h : pyTruthyOptList x = true) : ((x.getD []).map f).isEmpty = false := by
  rcases x with - | (- | ⟨a, t⟩) <;> simp_all [pyTruthyOptList]

/-- Emptiness of the built `must` list as a function of the criteria's
truthiness. -/
theorem mf_must_isEmpty (ci : Option Int) (ind bp pt : Option (List String))
    (us : Bool) :
    (mf_must ci ind bp pt us).isEmpty =
      (!pyTruthyOptInt ci && !(pyTruthyOptList ind && !us) &&
        !pyTruthyOptList bp && !pyTruthyOptList pt) := by
  by_cases h1 : pyTruthyOptInt ci <;>
    rcases ind with - | (- | ⟨a1, t1⟩) <;>
    rcases bp with - | (- | ⟨a3, t3⟩) <;>
    rcases pt with - | (- | ⟨a4, t4⟩) <;>
    cases us <;>
    simp [mf_must, pyTruthyOptList, h1]

/-- Emptiness of the built `should` list. -/
theorem mf_should_isEmpty (ind : Option (List String)) (us : Bool) :
    (mf_should ind us).isEmpty = !(pyTruthyOptList ind && us) := by
  rcases ind with - | (- | ⟨a1, t1⟩) <;> cases us <;>
    simp [mf_should, pyTruthyOptList]

/-- Emptiness of the built `must_not` list. -/
theorem mf_must_not_isEmpty (contra : Option (List String)) :
    (mf_must_not contra).isEmpty = !pyTruthyOptList contra := by
  rcases contra with - | (- | ⟨a2, t2⟩) <;> simp [mf_must_not, pyTruthyOptList]

/-- C9: `make_filter` returns `None` exactly when no criterion produces
a condition — all of channel id, indications, contraindications, body
parts and product type are falsy (absent, zero, or an empty list) — and
a present filter never has all of its `must`, `must_not` and `should`
parts empty. -/
theorem make_filter_none_iff (ci : Option Int)
    (ind contra bp pt : Option (List String)) (us : Bool) :
    (make_filter ci ind contra bp pt us = none ↔
      (pyTruthyOptInt ci = false ∧ pyTruthyOptList ind = false ∧
        pyTruthyOptList contra = false ∧ pyTruthyOptList bp = false ∧
        pyTruthyOptList pt = false)) ∧
    (∀ f, make_filter ci ind contra bp pt us = some f →
      ¬(f.must.getD [] = [] ∧ f.must_not.getD [] = [] ∧
        f.should.getD [] = [])) := by
  constructor
  · have hnone : make_filter ci ind contra bp pt us = none ↔
        (!(mf_must ci ind bp pt us).isEmpty ||
          !(mf_must_not contra).isEmpty ||
          !(mf_should ind us).isEmpty) = false := by
      unfold make_filter
      split
      · rename_i hcond
        simp [hcond]
      · rename_i hcond
        simp at hcond
        simp [hcond]
    rw [hnone, mf_must_isEmpty, mf_must_not_isEmpty, mf_should_isEmpty]
    clear hnone
    generalize pyTruthyOptInt ci = b1
    generalize pyTruthyOptList ind = b2
    generalize pyTruthyOptList contra = b3
    generalize pyTruthyOptList bp = b4
    generalize pyTruthyOptList pt = b5
    revert b1 b2 b3 b4 b5 us
    decide
  · intro f hf hempty
    unfold make_filter at hf
    split at hf
    · rename_i hcond
      rcases hempty with ⟨e1, e2, e3⟩
      injection hf with hf
      subst hf
      by_cases hm : (mf_must ci ind bp pt us).isEmpty
      · by_cases hmn : (mf_must_not contra).isEmpty
        · by_cases hs : (mf_should ind us).isEmpty
          · rw [hm, hmn, hs] at hcond
            simp at hcond
          · simp only [hm, hmn, hs] at e3
            simp at e3
            rw [e3] at hs
            simp at hs
        · simp only [hm, hmn] at e2
          simp at e2
          rw [e2] at hmn
          simp at hmn
      · simp only [hm] at e1
        simp at e1
        rw [e1] at hm
        simp at hm
    · cases hf

/-- Witness for C9: with only a channel id given, `make_filter` returns
a present filter whose parts are not all empty (second half of the
theorem applied at the produced filter), and with nothing given it
returns `None`. -/
theorem make_filter_none_iff_witness :
    make_filter (some 5) none none none none true =
      some { must := some [QCond.exactMatch "channel_id" 5],
             must_not := none, should := none } ∧
    ¬(((some [QCond.exactMatch "channel_id" 5] : Option (List QCond)).getD []
        = []) ∧
      ((none : Option (List QCond)).getD [] = []) ∧
      ((none : Option (List QCond)).getD [] = [])) ∧
    make_filter none none none none none false = none := by
  have hsome : make_filter (some 5) none none none none true =
      some { must := some [QCond.exactMatch "channel_id" 5],
             must_not := none, should := none } := by decide
  have hnotall := (make_filter_none_iff (some 5) none none none none true).2
    _ hsome
  have hnone : make_filter none none none none none false = none :=
    (make_filter_none_iff none none none none none false).1.mpr
      (by decide)
  exact ⟨hsome, hnotall, hnone⟩

/-- Membership in an insertion-sorted list. -/
theorem mem_insertSorted (le : α → α → Bool) (a b : α) :
    ∀ l, b ∈ insertSorted le a l ↔ b = a ∨ b ∈ l
  | [] => by simp [insertSorted]
  | c :: t => by
    unfold insertSorted
    by_cases h : le a c
    · simp [h]
    · simp only [h, Bool.false_eq_true, if_false, List.mem_cons,
        mem_insertSorted le a b t]
      tauto

/-- Sorting preserves membership. -/
theorem mem_sortBy (le : α → α → Bool) (b : α) :
    ∀ l, b ∈ sortBy le l ↔ b ∈ l
  | [] => Iff.rfl
  | a :: t => by
    unfold sortBy
    rw [mem_insertSorted]
    simp [mem_sortBy le b t]

/-- A prefetch pass returns at most its limit. -/
theorem topK_length_le (score : SPoint → ℚ) (φ : SPoint → Bool)
    (pts : List SPoint) (limit : Nat) : (topK score φ pts limit).length ≤ limit := by
  unfold topK
  simp [List.length_take]

/-- Every point a prefetch pass returns satisfies the filter. -/
theorem topK_filter_holds (score : SPoint → ℚ) (φ : SPoint → Bool)
    (pts : List SPoint) (limit : Nat) :
    ∀ p ∈ topK score φ pts limit, φ p = true := by
  intro p hp
  have hmem := List.take_subset _ _ hp
  rw [mem_sortBy] at hmem
  exact (List.mem_filter.mp hmem).2

/-- C7: with a truthy query and the built filter, the hybrid search
issues exactly two candidate retrievals — dense and sparse — of at most
12 items each, the filter holds on every candidate of both prefetch
passes, the result is the RRF fusion of the two passes, and at most 12
fused results come back. -/
theorem hybrid_search_spec (kc : Nat) (dense sparse : SPoint → ℚ)
    (pts : List SPoint) (channel_id : Int) (query : Option String)
    (ind contra bp pt : Option (List String))
    (hq : pyTruthyOptStr query = true) :
    (topK dense (hybrid_filter channel_id ind contra bp pt) pts 12).length
        ≤ 12 ∧
    (topK sparse (hybrid_filter channel_id ind contra bp pt) pts 12).length
        ≤ 12 ∧
    (∀ p ∈ topK dense (hybrid_filter channel_id ind contra bp pt) pts 12,
      hybrid_filter channel_id ind contra bp pt p = true) ∧
    (∀ p ∈ topK sparse (hybrid_filter channel_id ind contra bp pt) pts 12,
      hybrid_filter channel_id ind contra bp pt p = true) ∧
    retriever_product_hybrid_async kc dense sparse pts channel_id query
        ind contra bp pt =
      points_to_list (queryFusedRRF kc pts
        (hybrid_filter channel_id ind contra bp pt)
        [⟨dense, 12⟩, ⟨sparse, 12⟩] 12) ∧
    (retriever_product_hybrid_async kc dense sparse pts channel_id query
        ind contra bp pt).length ≤ 12 := by
  have heq : retriever_product_hybrid_async kc dense sparse pts channel_id
      query ind contra bp pt =
      points_to_list (queryFusedRRF kc pts
        (hybrid_filter channel_id ind contra bp pt)
        [⟨dense, 12⟩, ⟨sparse, 12⟩] 12) := by
    unfold retriever_product_hybrid_async
    rw [if_pos hq]
  refine ⟨topK_length_le _ _ _ _, topK_length_le _ _ _ _,
    topK_filter_holds _ _ _ _, topK_filter_holds _ _ _ _, heq, ?_⟩
  rw [heq]
  unfold points_to_list queryFusedRRF
  simp [List.length_take]

/-- Witness for C7: a concrete two-point store queried with a truthy
query and a channel filter returns at most 12 results, and the returned
list is the RRF fusion of the two prefetch passes. -/
theorem hybrid_search_spec_witness :
    pyTruthyOptStr (some "m") = true ∧
    retriever_product_hybrid_async 60 egScore egScore egPts 1 (some "m")
        none none none none =
      points_to_list (queryFusedRRF 60 egPts
        (hybrid_filter 1 none none none none)
        [⟨egScore, 12⟩, ⟨egScore, 12⟩] 12) ∧
    (retriever_product_hybrid_async 60 egScore egScore egPts 1 (some "m")
        none none none none).length ≤ 12 := by
  have hq : pyTruthyOptStr (some "m") = true := by decide
  have h := hybrid_search_spec 60 egScore egScore egPts 1 (some "m")
    none none none none hq
  exact ⟨hq, h.2.2.2.2.1, h.2.2.2.2.2⟩

/-- C5: the delete of stale product-service links and the bulk insert
of the new links run inside one database transaction: whenever
`update_products_services` returns `false` the table is exactly as it
was (no deletion is committed without the replacing inserts), and when
it returns `true` the table is the delete-result plus the surviving
insert tuples, committed together. -/
theorem products_services_transactional (env : PgEnv)
    (links : List (String × Int)) :
    ((update_products_services env links).result = false →
      (update_products_services env links).links = links) ∧
    ((update_products_services env links).result = true →
      (update_products_services env links).links =
        ps_after_delete env links ++ ps_insert_tuples env) := by
  unfold update_products_services
  by_cases hc : check_and_fix_products_indexes env
  · rw [if_pos hc]
    rcases hrun : run_ps_transaction env links with - | newLinks
    · simp
    · unfold run_ps_transaction at hrun
      split at hrun
      · cases hrun
      · split at hrun
        · cases hrun
        · split at hrun
          · cases hrun
          · split at hrun
            · cases hrun
            · injection hrun with hrun
              simp [hrun]
  · rw [if_neg hc]
    simp

/-- Witness for C5: in a store where the bulk insert fails after a
non-empty delete would have removed the link `("x", 5)`, the run
returns `false` and the table still holds `("x", 5)`. -/
theorem products_services_transactional_witness :
    (update_products_services egEnvInsertFail [("x", 5)]).result = false ∧
    (update_products_services egEnvInsertFail [("x", 5)]).links = [("x", 5)] :=
  ⟨by decide,
    (products_services_transactional egEnvInsertFail [("x", 5)]).1 (by decide)⟩

/-- Counterexample to C6 as stated: when the table-wide
`REINDEX TABLE public.products` fails (after a failed targeted reindex
and a still-failing re-check), the failure propagates out of the repair
step, `update_products_services` returns `false`, and the business
transaction does NOT execute. -/
theorem table_reindex_failure_blocks_transaction :
    (update_products_services egEnvTableReindexFail []).result = false ∧
    (update_products_services egEnvTableReindexFail []).txExecuted = false := by
  decide

/-- C6 amended: a failure of a *targeted* per-index reindex is caught
and logged and never blocks the business transaction — whenever the
table-wide reindex does not fail (in particular when it is not needed),
the delete-and-insert transaction executes, whatever the targeted
reindex outcomes were; only a table-wide reindex failure aborts the run
before the transaction. -/
theorem targeted_reindex_failure_nonblocking (env : PgEnv)
    (links : List (String × Int)) (h : env.reindex_table_ok = true) :
    (update_products_services env links).txExecuted = true := by
  have hc : check_and_fix_products_indexes env = true := by
    unfold check_and_fix_products_indexes
    split
    · rfl
    · split
      · rfl
      · split
        · rfl
        · split
          · exact h
          · rfl
  unfold update_products_services
  rw [if_pos hc]
  rcases hrun : run_ps_transaction env links with - | newLinks <;> simp [hrun]

/-- Witness for the amended C6: a store whose targeted reindex fails on
every index (and whose integrity checks keep failing) but whose
table-wide reindex succeeds still executes the business transaction. -/
theorem targeted_reindex_failure_nonblocking_witness :
    egEnvTargetedFail.reindex_table_ok = true ∧
    (update_products_services egEnvTargetedFail []).txExecuted = true :=
  ⟨by decide, targeted_reindex_failure_nonblocking egEnvTargetedFail []
    (by decide)⟩

end Apifast
